import Mathlib

/-!
Shallow embedding of the core of the Real-Time Weather Monitoring System
(server.js): the cache-aside fetcher, the daily-summary aggregation, the
most-frequent-condition helper, the consecutive-breach alert state machine,
the polling sweep, and the GetLatest HTTP route guard.

JavaScript numbers are modelled by rationals.  The special values NaN,
Infinity and -Infinity that the aggregation produces on an empty window are
made explicit by the JNum type.  JSON serialisation into the Redis cache is
modelled as the identity on the structured value, and TTL expiry as an
explicit integer clock.  The provider call is modelled by a ProviderEvent
describing what the one https request does.
-/

namespace Weather

/-- JavaScript number results relevant to the aggregation code: a finite
value, NaN (from 0/0), or the two infinities (from Math.max and Math.min of
an empty spread). -/
inductive JNum where
  | nan : JNum
  | negInf : JNum
  | posInf : JNum
  | num : ℚ → JNum
deriving DecidableEq

/-- JavaScript division for the shapes occurring in calculateDailySummary:
0/0 is NaN, x/0 for nonzero x is a signed infinity, otherwise exact. -/
def jsDiv (a b : ℚ) : JNum :=
  if b = 0 then
    (if a = 0 then JNum.nan else if 0 < a then JNum.posInf else JNum.negInf)
  else JNum.num (a / b)

/-- Math.max over a spread argument list: -Infinity when empty. -/
def jsMax (xs : List ℚ) : JNum :=
  match xs with
  | [] => JNum.negInf
  | x :: r => JNum.num (r.foldl max x)

/-- Math.min over a spread argument list: Infinity when empty. -/
def jsMin (xs : List ℚ) : JNum :=
  match xs with
  | [] => JNum.posInf
  | x :: r => JNum.num (r.foldl min x)

/-- The processedData record built inside fetchWeatherData (server.js
lines 62-70). -/
structure ProcessedData where
  city : String
  main : String
  temp : ℚ
  feels_like : ℚ
  humidity : ℚ
  wind_speed : ℚ
  dt : ℤ
deriving DecidableEq

/-- One element of the weather array of a provider payload. -/
structure WeatherField where
  main : String
deriving DecidableEq

/-- The main object of a provider payload. -/
structure MainField where
  temp : ℚ
  feels_like : ℚ
  humidity : ℚ
deriving DecidableEq

/-- The wind object of a provider payload. -/
structure WindField where
  speed : ℚ
deriving DecidableEq

/-- A parsed provider payload; Option models fields that may be absent,
which the destructuring at server.js line 61 never checks. -/
structure RawResponse where
  weather : Option (List WeatherField)
  main : Option MainField
  wind : Option WindField
  dt : ℤ
deriving DecidableEq

/-- What the single https request inside a fetch does: fire the error
event, deliver a body that JSON.parse rejects, or deliver a parsed
payload. -/
inductive ProviderEvent where
  | netErr : String → ProviderEvent
  | invalidJson : String → ProviderEvent
  | response : RawResponse → ProviderEvent
deriving DecidableEq

/-- Result of the body of the end handler (server.js lines 59-73): either
the built observation, or an uncaught TypeError.  The handler is an async
callback, so such an exception rejects nothing the caller awaits and the
promise returned by fetchWeatherData never settles.  The object literal
evaluates weather[0].main first, then main.temp, then wind.speed. -/
inductive HandlerResult where
  | ok : ProcessedData → HandlerResult
  | typeError : String → HandlerResult
deriving DecidableEq

/-- The end handler of fetchWeatherData (server.js lines 59-73). -/
def handleEnd (city : String) (r : RawResponse) : HandlerResult :=
  match r.weather with
  | none => HandlerResult.typeError "TypeError: cannot read 0 of undefined"
  | some [] => HandlerResult.typeError "TypeError: cannot read main of undefined"
  | some (w0 :: _) =>
    match r.main with
    | none => HandlerResult.typeError "TypeError: cannot read temp of undefined"
    | some m =>
      match r.wind with
      | none => HandlerResult.typeError "TypeError: cannot read speed of undefined"
      | some wd =>
        HandlerResult.ok
          { city := city, main := w0.main, temp := m.temp - 273.15,
            feels_like := m.feels_like - 273.15, humidity := m.humidity,
            wind_speed := wd.speed, dt := r.dt }

/-- The Redis cache: key to stored observation and absolute expiry time in
seconds.  JSON round-tripping of the stored record is the identity in this
model. -/
abbrev CacheState := String → Option (ProcessedData × ℤ)

/-- Write one cache entry (setAsync with EX, server.js line 71). -/
def updateCache (c : CacheState) (key : String) (v : ProcessedData × ℤ) : CacheState :=
  fun x => if x = key then some v else c x

/-- TTL of weather cache entries in seconds (server.js line 71). -/
def weatherTTL : ℤ := 300

/-- How the promise returned by fetchWeatherData ends up: resolved with an
observation, rejected with a string, or never settled because the end
handler threw. -/
inductive FetchOutcome where
  | resolved : ProcessedData → FetchOutcome
  | rejected : String → FetchOutcome
  | unsettled : String → FetchOutcome
deriving DecidableEq

/-- Whether the promise settles (resolves or rejects) at all. -/
def FetchOutcome.settles : FetchOutcome → Bool
  | FetchOutcome.unsettled _ => false
  | _ => true

/-- Observable effects of one fetchWeatherData call. -/
structure FetchTrace where
  outcome : FetchOutcome
  providerCalls : Nat
  cacheWrites : Nat
  cache : CacheState

/-- The cache-miss path of fetchWeatherData (server.js lines 53-77): one
provider call; on a well-formed payload the observation is built and
written back with a 300-second expiry; the https error event rejects with
the Error: prefix of line 75; a handler exception leaves the promise
unsettled and writes nothing. -/
def fetchMiss (cache : CacheState) (now : ℤ) (ev : ProviderEvent) (city : String)
    (cacheKey : String) : FetchTrace :=
  match ev with
  | ProviderEvent.netErr m =>
    { outcome := FetchOutcome.rejected ("Error: " ++ m), providerCalls := 1,
      cacheWrites := 0, cache := cache }
  | ProviderEvent.invalidJson m =>
    { outcome := FetchOutcome.unsettled m, providerCalls := 1,
      cacheWrites := 0, cache := cache }
  | ProviderEvent.response raw =>
    match handleEnd city raw with
    | HandlerResult.ok d =>
      { outcome := FetchOutcome.resolved d, providerCalls := 1, cacheWrites := 1,
        cache := updateCache cache cacheKey (d, now + weatherTTL) }
    | HandlerResult.typeError m =>
      { outcome := FetchOutcome.unsettled m, providerCalls := 1,
        cacheWrites := 0, cache := cache }

/-- fetchWeatherData (server.js lines 46-78): consult the cache at key
weather:city; a live entry is returned as-is with no provider call and no
write; otherwise the provider is called.  The function performs no
monitored-set validation on city. -/
def fetchWeatherData (cache : CacheState) (now : ℤ) (ev : ProviderEvent)
    (city : String) : FetchTrace :=
  match cache ("weather:" ++ city) with
  | some (v, expiry) =>
    if now < expiry then
      { outcome := FetchOutcome.resolved v, providerCalls := 0,
        cacheWrites := 0, cache := cache }
    else fetchMiss cache now ev city ("weather:" ++ city)
  | none => fetchMiss cache now ev city ("weather:" ++ city)

/-- A cache miss at time now: no entry, or an entry already expired. -/
def isMiss (cache : CacheState) (now : ℤ) (key : String) : Bool :=
  match cache key with
  | none => true
  | some (_, expiry) => decide (expiry ≤ now)

/-- The fixed monitored city list (server.js line 44). -/
def cities : List String :=
  ["Delhi", "Mumbai", "Chennai", "Bangalore", "Kolkata", "Hyderabad"]

/-- A stored WeatherData document (schema at server.js lines 30-39); date
is the stored Date in milliseconds since the epoch. -/
structure WeatherRow where
  city : String
  main : String
  temp : ℚ
  feels_like : ℚ
  humidity : ℚ
  wind_speed : ℚ
  dt : ℤ
  date : ℤ
deriving DecidableEq

/-- saveWeatherData (server.js lines 80-86): date is new Date(dt * 1000). -/
def saveWeatherData (d : ProcessedData) : WeatherRow :=
  { city := d.city, main := d.main, temp := d.temp, feels_like := d.feels_like,
    humidity := d.humidity, wind_speed := d.wind_speed, dt := d.dt,
    date := d.dt * 1000 }

/-- The Durable Store query of calculateDailySummary (server.js lines
94-97): all rows for the city whose date lies in the inclusive window. -/
def queryWindow (db : List WeatherRow) (city : String) (startOfDay endOfDay : ℤ) :
    List WeatherRow :=
  db.filter (fun r => r.city == city && decide (startOfDay ≤ r.date) &&
    decide (r.date ≤ endOfDay))

/-- The occurrence count used by the comparator of getMostFrequent:
arr.filter of the elements equal to v, then length. -/
def countOcc (arr : List String) (v : String) : Nat :=
  (arr.filter (fun x => x == v)).length

/-- Stable ascending insertion keyed by k: the new element goes after every
element of less-or-equal key, so equal keys keep arrival order, matching
the stability of Array.prototype.sort. -/
def sortInsert (k : String → Nat) (x : String) : List String → List String
  | [] => [x]
  | y :: ys => if k y ≤ k x then y :: sortInsert k x ys else x :: y :: ys

/-- Stable ascending sort by key, inserting elements left to right. -/
def sortByKey (k : String → Nat) (l : List String) : List String :=
  l.foldl (fun acc x => sortInsert k x acc) []

/-- getMostFrequent (server.js lines 114-118): arr.sort by ascending
occurrence count, then pop, which returns the last element (undefined,
here none, when empty).  The comparator counts occurrences in the array
being sorted, which is at every moment a permutation of the input, so the
counts agree with the counts in the input; Array.prototype.sort is
stable. -/
def getMostFrequent (arr : List String) : Option String :=
  (sortByKey (fun v => countOcc arr v) arr).getLast?

/-- The daily summary object returned by calculateDailySummary (server.js
lines 102-111). -/
structure DailySummary where
  city : String
  date : ℤ
  avgTemp : JNum
  maxTemp : JNum
  minTemp : JNum
  dominantWeather : Option String
  avgHumidity : JNum
  avgWindSpeed : JNum
deriving DecidableEq

/-- calculateDailySummary (server.js lines 88-112), with the queried day
window made explicit as the inclusive interval from startOfDay to endOfDay
in epoch milliseconds.  Note that nothing guards against an empty query
result: the reductions divide by the length as-is and the spreads of
Math.max and Math.min are empty. -/
def calculateDailySummary (db : List WeatherRow) (city : String)
    (startOfDay endOfDay : ℤ) : DailySummary :=
  let data := queryWindow db city startOfDay endOfDay
  let temperatures := data.map (fun d => d.temp)
  let weatherConditions := data.map (fun d => d.main)
  { city := city,
    date := startOfDay,
    avgTemp := jsDiv temperatures.sum (temperatures.length : ℚ),
    maxTemp := jsMax temperatures,
    minTemp := jsMin temperatures,
    dominantWeather := getMostFrequent weatherConditions,
    avgHumidity := jsDiv ((data.map (fun d => d.humidity)).sum) (data.length : ℚ),
    avgWindSpeed := jsDiv ((data.map (fun d => d.wind_speed)).sum) (data.length : ℚ) }

/-- The inline Kelvin-to-Celsius conversion applied when the observation is
built (server.js lines 65-66). -/
def toDisplayUnit (x : ℚ) : ℚ := x - 273.15

/-- Alert threshold in display units (server.js line 120). -/
def alertThreshold : ℚ := 35

/-- Required number of consecutive breaches (server.js line 121). -/
def alertConsecutiveCount : Nat := 2

/-- Whether checkAndSendAlert invoked sendAlertEmail on this reading. -/
inductive AlertDecision where
  | NoAlert : AlertDecision
  | Alert : AlertDecision
deriving DecidableEq

/-- Point update of the alertCounts object; a key never written reads as 0,
matching the alertCounts[city] || 0 idiom. -/
def setCount (counts : String → Nat) (city : String) (n : Nat) : String → Nat :=
  fun x => if x = city then n else counts x

/-- checkAndSendAlert (server.js lines 124-134); the Alert decision marks
the sendAlertEmail call. -/
def checkAndSendAlert (counts : String → Nat) (city : String) (temp : ℚ) :
    (String → Nat) × AlertDecision :=
  if alertThreshold < temp then
    if alertConsecutiveCount ≤ counts city + 1 then
      (setCount counts city 0, AlertDecision.Alert)
    else
      (setCount counts city (counts city + 1), AlertDecision.NoAlert)
  else
    (setCount counts city 0, AlertDecision.NoAlert)

/-- Feed a list of temperature readings for one city through the machine,
returning the final counters and the decisions in order. -/
def runAlerts (counts : String → Nat) (city : String) :
    List ℚ → (String → Nat) × List AlertDecision
  | [] => (counts, [])
  | t :: ts =>
    let step := checkAndSendAlert counts city t
    let rest := runAlerts step.1 city ts
    (rest.1, step.2 :: rest.2)

/-- Feed an arbitrary interleaving of city-temperature readings. -/
def runEvents (counts : String → Nat) : List (String × ℚ) → (String → Nat)
  | [] => counts
  | e :: rest => runEvents (checkAndSendAlert counts e.1 e.2).1 rest

/-- Responses of the GET /api/weather/:city route. -/
inductive ApiWeatherResult where
  | invalidCity : ApiWeatherResult
  | ok : Option WeatherRow → ApiWeatherResult
deriving DecidableEq

/-- WeatherData.findOne for the city sorted by dt descending: a stored row
of maximal dt among the rows for the city, first stored winning among equal
dt values. -/
def findLatest (db : List WeatherRow) (city : String) : Option WeatherRow :=
  (db.filter (fun r => r.city == city)).foldl
    (fun acc r =>
      match acc with
      | none => some r
      | some b => if b.dt < r.dt then some r else some b)
    none

/-- GET /api/weather/:city (server.js lines 177-188): cities membership is
checked before the store is consulted. -/
def apiWeatherCity (db : List WeatherRow) (city : String) : ApiWeatherResult :=
  if cities.contains city then ApiWeatherResult.ok (findLatest db city)
  else ApiWeatherResult.invalidCity

/-- Per-city result of one iteration of the polling loop body. -/
inductive CityResult where
  | processed : WeatherRow → AlertDecision → CityResult
  | caughtFetch : String → CityResult
  | caughtPersist : CityResult
  | stalled : String → CityResult
deriving DecidableEq

/-- One iteration of the polling loop body (server.js lines 163-170):
await fetch, await save, await alert, with rejections caught by the
try-catch; an unsettled fetch promise blocks its await forever. -/
def processCity (provider : String → ProviderEvent) (persistOk : String → Bool)
    (now : ℤ) (cache : CacheState) (counts : String → Nat) (city : String) :
    CityResult × CacheState × (String → Nat) :=
  let tr := fetchWeatherData cache now (provider city) city
  match tr.outcome with
  | FetchOutcome.rejected m => (CityResult.caughtFetch m, tr.cache, counts)
  | FetchOutcome.unsettled m => (CityResult.stalled m, tr.cache, counts)
  | FetchOutcome.resolved d =>
    if persistOk city then
      let step := checkAndSendAlert counts city d.temp
      (CityResult.processed (saveWeatherData d) step.2, tr.cache, step.1)
    else (CityResult.caughtPersist, tr.cache, counts)

/-- One sweep of scheduleFetchWeatherData (server.js lines 161-173) over a
city list: the per-city results in visiting order, with the final cache and
counters.  A stalled city ends the sweep: the loop never reaches the
remaining cities. -/
def sweep (provider : String → ProviderEvent) (persistOk : String → Bool) (now : ℤ) :
    CacheState → (String → Nat) → List String →
    List (String × CityResult) × CacheState × (String → Nat)
  | cache, counts, [] => ([], cache, counts)
  | cache, counts, city :: rest =>
    let step := processCity provider persistOk now cache counts city
    match step.1 with
    | CityResult.stalled m => ([(city, CityResult.stalled m)], step.2.1, step.2.2)
    | r =>
      let tail := sweep provider persistOk now step.2.1 step.2.2 rest
      ((city, r) :: tail.1, tail.2.1, tail.2.2)

/-- Whether a provider event leads to a fetch promise that settles for this
city: the error event rejects; a payload settles exactly when the end
handler does not throw. -/
def eventSettles (city : String) (ev : ProviderEvent) : Bool :=
  match ev with
  | ProviderEvent.netErr _ => true
  | ProviderEvent.invalidJson _ => false
  | ProviderEvent.response raw =>
    match handleEnd city raw with
    | HandlerResult.ok _ => true
    | HandlerResult.typeError _ => false

/-- Arithmetic mean of a rational list (length as rational). -/
def meanQ (xs : List ℚ) : ℚ := xs.sum / (xs.length : ℚ)

/-- Maximum of a rational list, 0 for the empty list. -/
def maxQ : List ℚ → ℚ
  | [] => 0
  | x :: r => r.foldl max x

/-- Minimum of a rational list, 0 for the empty list. -/
def minQ : List ℚ → ℚ
  | [] => 0
  | x :: r => r.foldl min x

/-- Greatest value of the key over a list, 0 for the empty list. -/
def maxKey (k : String → Nat) (l : List String) : Nat :=
  l.foldl (fun acc v => max acc (k v)) 0

/-- Transcribed from the spec wording for the dominant condition: the
greatest occurrence count over the window. -/
def maxCount (arr : List String) : Nat := maxKey (fun v => countOcc arr v) arr

/-- Transcribed from the spec wording for the dominant condition: among the
values of greatest occurrence count, the one encountered last in the
original order wins. -/
def specDominantCondition (arr : List String) : Option String :=
  (arr.filter (fun v => decide (countOcc arr v = maxCount arr))).getLast?

/-- Generic form of specDominantCondition for an arbitrary key. -/
def specLastMax (k : String → Nat) (l : List String) : Option String :=
  (l.filter (fun v => decide (k v = maxKey k l))).getLast?

/-- A well-formed sample provider payload used by concrete witnesses. -/
def rawClear : RawResponse :=
  { weather := some [{ main := "Clear" }],
    main := some { temp := 300, feels_like := 301, humidity := 40 },
    wind := some { speed := 5 }, dt := 7 }

/-- The observation fetchWeatherData builds from rawClear for a city. -/
def obsClear (city : String) : ProcessedData :=
  { city := city, main := "Clear", temp := 300 - 273.15,
    feels_like := 301 - 273.15, humidity := 40, wind_speed := 5, dt := 7 }

/-- A sample stored row used by concrete witnesses. -/
def rowDelhi : WeatherRow :=
  { city := "Delhi", main := "Clear", temp := 30, feels_like := 31,
    humidity := 40, wind_speed := 5, dt := 1, date := 3 }

/-- Claim C1: the alert state machine increments on a strictly-above
reading, alerts and resets once the count reaches the required two
consecutive breaches, resets without alert on an at-or-below reading; and
the concrete sequences 36,37 then 36, and 36,10,36 behave as specified. -/
theorem alert_state_machine_spec :
    (∀ (counts : String → Nat) (city : String) (temp : ℚ),
      (alertThreshold < temp → alertConsecutiveCount ≤ counts city + 1 →
        checkAndSendAlert counts city temp =
          (setCount counts city 0, AlertDecision.Alert)) ∧
      (alertThreshold < temp → counts city + 1 < alertConsecutiveCount →
        checkAndSendAlert counts city temp =
          (setCount counts city (counts city + 1), AlertDecision.NoAlert)) ∧
      (temp ≤ alertThreshold →
        checkAndSendAlert counts city temp =
          (setCount counts city 0, AlertDecision.NoAlert))) ∧
    (runAlerts (fun _ => 0) "Delhi" [36, 37]).2 =
      [AlertDecision.NoAlert, AlertDecision.Alert] ∧
    (runAlerts (fun _ => 0) "Delhi" [36, 37]).1 "Delhi" = 0 ∧
    (runAlerts (runAlerts (fun _ => 0) "Delhi" [36, 37]).1 "Delhi" [36]).2 =
      [AlertDecision.NoAlert] ∧
    (runAlerts (fun _ => 0) "Delhi" [36, 10, 36]).2 =
      [AlertDecision.NoAlert, AlertDecision.NoAlert, AlertDecision.NoAlert] := by
  refine ⟨?_, by decide, by decide, by decide, by decide⟩
  intro counts city temp
  refine ⟨fun h1 h2 => ?_, fun h1 h2 => ?_, fun h => ?_⟩
  · simp [checkAndSendAlert, h1, h2]
  · simp [checkAndSendAlert, h1, Nat.not_le.mpr h2]
  · simp [checkAndSendAlert, not_lt.mpr h]

/-- Witness for the C1 theorem at a concrete input: with count 1 already
accumulated for Delhi, a reading of 36 fires the alert and resets. -/
theorem alert_state_machine_spec_witness :
    alertThreshold < (36 : ℚ) ∧
    alertConsecutiveCount ≤ (fun _ : String => 1) "Delhi" + 1 ∧
    checkAndSendAlert (fun _ => 1) "Delhi" 36 =
      (setCount (fun _ => 1) "Delhi" 0, AlertDecision.Alert) := by
  refine ⟨by decide, by decide, ?_⟩
  exact (alert_state_machine_spec.1 (fun _ => 1) "Delhi" 36).1 (by decide) (by decide)

/-- Auxiliary: setCount keeps every counter at most 1 when the written
value is. -/
lemma setCount_le_one (counts : String → Nat) (city : String) (n : Nat)
    (h : ∀ c, counts c ≤ 1) (hn : n ≤ 1) : ∀ c, setCount counts city n c ≤ 1 := by
  intro c
  unfold setCount
  split
  · exact hn
  · exact h c

/-- Auxiliary: one checkAndSendAlert step keeps every counter at most 1. -/
lemma checkAndSendAlert_le_one (counts : String → Nat) (city : String) (temp : ℚ)
    (h : ∀ c, counts c ≤ 1) : ∀ c, (checkAndSendAlert counts city temp).1 c ≤ 1 := by
  unfold checkAndSendAlert
  split
  · split
    · exact setCount_le_one counts city 0 h (by omega)
    · rename_i hc
      have : counts city + 1 ≤ 1 := by
        have := Nat.lt_of_not_le hc
        simp [alertConsecutiveCount] at this
        omega
      exact setCount_le_one counts city (counts city + 1) h this
  · exact setCount_le_one counts city 0 h (by omega)

/-- Auxiliary: the at-most-1 counter invariant is preserved along any
event sequence. -/
lemma runEvents_le_one (events : List (String × ℚ)) :
    ∀ (counts : String → Nat), (∀ c, counts c ≤ 1) →
      ∀ c, runEvents counts events c ≤ 1 := by
  induction events with
  | nil => intro counts h c; exact h c
  | cons e rest ih =>
    intro counts h c
    exact ih _ (checkAndSendAlert_le_one counts e.1 e.2 h) c

/-- Claim C10: starting from the empty counter map, after any sequence of
checkAndSendAlert calls every counter is 0 or 1: reaching the required
consecutive count immediately resets it. -/
theorem alert_counter_range_invariant (events : List (String × ℚ)) (city : String) :
    runEvents (fun _ => 0) events city = 0 ∨
    runEvents (fun _ => 0) events city = 1 := by
  have h := runEvents_le_one events (fun _ => 0) (fun c => Nat.zero_le 1) city
  omega

/-- Claim C8: the ingestion temperature conversion is the fixed offset
x - 273.15, sends 273.15 to 0, and is applied to both the temperature and
the feels-like field when the observation is built from a well-formed
payload.  It is a total function on rationals with no error case. -/
theorem unit_conversion_offset :
    (∀ x : ℚ, toDisplayUnit x = x - 273.15) ∧
    toDisplayUnit 273.15 = 0 ∧
    (∀ (city : String) (w0 : WeatherField) (ws : List WeatherField)
        (m : MainField) (wd : WindField) (d : ℤ),
      handleEnd city
          { weather := some (w0 :: ws), main := some m,
            wind := some wd, dt := d } =
        HandlerResult.ok
          { city := city, main := w0.main, temp := toDisplayUnit m.temp,
            feels_like := toDisplayUnit m.feels_like, humidity := m.humidity,
            wind_speed := wd.speed, dt := d }) := by
  refine ⟨fun x => rfl, by norm_num [toDisplayUnit], fun city w0 ws m wd d => rfl⟩

/-- Claim C2: contrary to the claim, calculateDailySummary does not fail on
an empty window; evaluated at a window with zero observations it returns a
summary whose averages are NaN, whose maximum is -Infinity, whose minimum
is Infinity and whose dominant condition is undefined. -/
theorem empty_window_returns_nan :
    calculateDailySummary [] "Delhi" 0 86399999 =
      { city := "Delhi", date := 0, avgTemp := JNum.nan, maxTemp := JNum.negInf,
        minTemp := JNum.posInf, dominantWeather := none,
        avgHumidity := JNum.nan, avgWindSpeed := JNum.nan } := by
  decide

/-- Claim C4: on a cache miss a provider network failure rejects the fetch
with the Error: prefix carrying the underlying cause and calls the provider
exactly once; but a payload missing the weather, main or wind field does
not reject with any MalformedUpstreamData error: the end handler throws a
TypeError and the fetch promise never settles. -/
theorem malformed_payload_behavior :
    (fetchWeatherData (fun _ => none) 0
        (ProviderEvent.netErr "connect ETIMEDOUT") "Delhi").outcome =
      FetchOutcome.rejected ("Error: " ++ "connect ETIMEDOUT") ∧
    (fetchWeatherData (fun _ => none) 0
        (ProviderEvent.netErr "connect ETIMEDOUT") "Delhi").providerCalls = 1 ∧
    (fetchWeatherData (fun _ => none) 0
        (ProviderEvent.response { rawClear with weather := none }) "Delhi").outcome =
      FetchOutcome.unsettled "TypeError: cannot read 0 of undefined" ∧
    (fetchWeatherData (fun _ => none) 0
        (ProviderEvent.response { rawClear with weather := some [] }) "Delhi").outcome =
      FetchOutcome.unsettled "TypeError: cannot read main of undefined" ∧
    (fetchWeatherData (fun _ => none) 0
        (ProviderEvent.response { rawClear with main := none }) "Delhi").outcome =
      FetchOutcome.unsettled "TypeError: cannot read temp of undefined" ∧
    (fetchWeatherData (fun _ => none) 0
        (ProviderEvent.response { rawClear with wind := none }) "Delhi").outcome =
      FetchOutcome.unsettled "TypeError: cannot read speed of undefined" ∧
    (fetchWeatherData (fun _ => none) 0
        (ProviderEvent.response { rawClear with wind := none }) "Delhi").cacheWrites = 0 := by
  refine ⟨by decide, by decide, by decide, by decide, by decide, by decide, by decide⟩

/-- Counterexample to claim C3: Paris is not monitored, yet fetchWeatherData
with an empty cache calls the provider and resolves with the built
observation instead of failing with InvalidLocation. -/
theorem fetch_unmonitored_counterexample :
    cities.contains "Paris" = false ∧
    (fetchWeatherData (fun _ => none) 0 (ProviderEvent.response rawClear)
        "Paris").outcome = FetchOutcome.resolved (obsClear "Paris") ∧
    (fetchWeatherData (fun _ => none) 0 (ProviderEvent.response rawClear)
        "Paris").providerCalls = 1 := by
  refine ⟨by decide, rfl, rfl⟩

/-- Claim C3 amended: for a location outside the monitored set the
GetLatest route rejects with the invalid-city response before consulting
the store, while fetchWeatherData performs no monitored-set check at all
and on a cache miss always proceeds to the provider. -/
theorem invalid_location_amended (city : String)
    (h : cities.contains city = false) :
    (∀ db : List WeatherRow, apiWeatherCity db city = ApiWeatherResult.invalidCity) ∧
    (∀ (now : ℤ) (ev : ProviderEvent),
      (fetchWeatherData (fun _ => none) now ev city).providerCalls = 1) := by
  constructor
  · intro db
    unfold apiWeatherCity
    rw [h]
    rfl
  · intro now ev
    show (fetchMiss (fun _ => none) now ev city ("weather:" ++ city)).providerCalls = 1
    cases ev with
    | netErr m => rfl
    | invalidJson m => rfl
    | response raw =>
      rcases hh : handleEnd city raw with d | m <;> simp only [fetchMiss, hh]

/-- Witness for the amended C3 theorem at the concrete city Paris. -/
theorem invalid_location_amended_witness :
    cities.contains "Paris" = false ∧
    apiWeatherCity [] "Paris" = ApiWeatherResult.invalidCity ∧
    (fetchWeatherData (fun _ => none) 0
        (ProviderEvent.netErr "getaddrinfo ENOTFOUND") "Paris").providerCalls = 1 := by
  refine ⟨by decide,
    (invalid_location_amended "Paris" (by decide)).1 [],
    (invalid_location_amended "Paris" (by decide)).2 0 _⟩

/-- Claim C5: on a cache miss followed by a successful provider fetch the
observation is written back exactly once with the 300-second expiry, and a
second fetch for the same city anywhere inside the TTL window returns the
identical observation with no provider call and no cache write, whatever
the provider would have done. -/
theorem cache_roundtrip (cache : CacheState) (now t1 : ℤ) (city : String)
    (raw : RawResponse) (d : ProcessedData) (ev2 : ProviderEvent)
    (hmiss : isMiss cache now ("weather:" ++ city) = true)
    (hok : handleEnd city raw = HandlerResult.ok d)
    (h0 : now ≤ t1) (h1 : t1 < now + weatherTTL) :
    (fetchWeatherData cache now (ProviderEvent.response raw) city).outcome =
      FetchOutcome.resolved d ∧
    (fetchWeatherData cache now (ProviderEvent.response raw) city).providerCalls = 1 ∧
    (fetchWeatherData cache now (ProviderEvent.response raw) city).cacheWrites = 1 ∧
    (fetchWeatherData
        (fetchWeatherData cache now (ProviderEvent.response raw) city).cache
        t1 ev2 city).outcome = FetchOutcome.resolved d ∧
    (fetchWeatherData
        (fetchWeatherData cache now (ProviderEvent.response raw) city).cache
        t1 ev2 city).providerCalls = 0 ∧
    (fetchWeatherData
        (fetchWeatherData cache now (ProviderEvent.response raw) city).cache
        t1 ev2 city).cacheWrites = 0 := by
  have hfirst : fetchWeatherData cache now (ProviderEvent.response raw) city =
      fetchMiss cache now (ProviderEvent.response raw) city ("weather:" ++ city) := by
    unfold fetchWeatherData
    unfold isMiss at hmiss
    cases hc : cache ("weather:" ++ city) with
    | none => rfl
    | some p =>
      obtain ⟨v, expiry⟩ := p
      rw [hc] at hmiss
      simp only [decide_eq_true_eq] at hmiss
      show (if now < expiry then
          ({ outcome := FetchOutcome.resolved v, providerCalls := 0,
             cacheWrites := 0, cache := cache } : FetchTrace)
        else fetchMiss cache now (ProviderEvent.response raw) city
          ("weather:" ++ city)) =
        fetchMiss cache now (ProviderEvent.response raw) city ("weather:" ++ city)
      rw [if_neg (by omega)]
  have hmissv : fetchMiss cache now (ProviderEvent.response raw) city
      ("weather:" ++ city) =
      { outcome := FetchOutcome.resolved d, providerCalls := 1, cacheWrites := 1,
        cache := updateCache cache ("weather:" ++ city) (d, now + weatherTTL) } := by
    simp only [fetchMiss, hok]
  have hlook : updateCache cache ("weather:" ++ city) (d, now + weatherTTL)
      ("weather:" ++ city) = some (d, now + weatherTTL) := by
    simp [updateCache]
  have hhit : fetchWeatherData (updateCache cache ("weather:" ++ city)
      (d, now + weatherTTL)) t1 ev2 city =
      { outcome := FetchOutcome.resolved d, providerCalls := 0, cacheWrites := 0,
        cache := updateCache cache ("weather:" ++ city) (d, now + weatherTTL) } := by
    simp [fetchWeatherData, hlook, h1]
  rw [hfirst, hmissv]
  refine ⟨rfl, rfl, rfl, ?_, ?_, ?_⟩
  · show (fetchWeatherData (updateCache cache ("weather:" ++ city)
        (d, now + weatherTTL)) t1 ev2 city).outcome = FetchOutcome.resolved d
    rw [hhit]
  · show (fetchWeatherData (updateCache cache ("weather:" ++ city)
        (d, now + weatherTTL)) t1 ev2 city).providerCalls = 0
    rw [hhit]
  · show (fetchWeatherData (updateCache cache ("weather:" ++ city)
        (d, now + weatherTTL)) t1 ev2 city).cacheWrites = 0
    rw [hhit]

/-- Witness for the C5 theorem: empty cache, a fetch at time 0, and a
second fetch at time 299, one second before expiry. -/
theorem cache_roundtrip_witness :
    isMiss (fun _ => none) 0 ("weather:" ++ "Delhi") = true ∧
    handleEnd "Delhi" rawClear = HandlerResult.ok (obsClear "Delhi") ∧
    (0 : ℤ) ≤ 299 ∧ (299 : ℤ) < 0 + weatherTTL ∧
    ((fetchWeatherData (fun _ => none) 0 (ProviderEvent.response rawClear)
        "Delhi").outcome = FetchOutcome.resolved (obsClear "Delhi") ∧
      (fetchWeatherData (fun _ => none) 0 (ProviderEvent.response rawClear)
        "Delhi").providerCalls = 1 ∧
      (fetchWeatherData (fun _ => none) 0 (ProviderEvent.response rawClear)
        "Delhi").cacheWrites = 1 ∧
      (fetchWeatherData
          (fetchWeatherData (fun _ => none) 0 (ProviderEvent.response rawClear)
            "Delhi").cache
          299 (ProviderEvent.netErr "down") "Delhi").outcome =
        FetchOutcome.resolved (obsClear "Delhi") ∧
      (fetchWeatherData
          (fetchWeatherData (fun _ => none) 0 (ProviderEvent.response rawClear)
            "Delhi").cache
          299 (ProviderEvent.netErr "down") "Delhi").providerCalls = 0 ∧
      (fetchWeatherData
          (fetchWeatherData (fun _ => none) 0 (ProviderEvent.response rawClear)
            "Delhi").cache
          299 (ProviderEvent.netErr "down") "Delhi").cacheWrites = 0) := by
  refine ⟨by decide, rfl, by decide, by decide, ?_⟩
  exact cache_roundtrip (fun _ => none) 0 299 "Delhi" rawClear (obsClear "Delhi")
    (ProviderEvent.netErr "down") (by decide) rfl (by decide) (by decide)

/-- Auxiliary: sortInsert only inserts the given element. -/
lemma mem_sortInsert (k : String → Nat) (x z : String) :
    ∀ l : List String, z ∈ sortInsert k x l → z = x ∨ z ∈ l := by
  intro l
  induction l with
  | nil =>
    intro h
    simp [sortInsert] at h
    exact Or.inl h
  | cons y ys ih =>
    intro h
    rw [sortInsert] at h
    split at h
    · rcases List.mem_cons.mp h with rfl | h2
      · exact Or.inr (List.mem_cons_self _ _)
      · rcases ih h2 with h3 | h3
        · exact Or.inl h3
        · exact Or.inr (List.mem_cons_of_mem _ h3)
    · rcases List.mem_cons.mp h with rfl | h2
      · exact Or.inl rfl
      · exact Or.inr h2

/-- Auxiliary: sortInsert never returns the empty list. -/
lemma sortInsert_ne_nil (k : String → Nat) (x : String) (l : List String) :
    sortInsert k x l ≠ [] := by
  cases l with
  | nil => simp [sortInsert]
  | cons y ys =>
    rw [sortInsert]
    split <;> simp

/-- Auxiliary: sortInsert preserves sortedness by the key. -/
lemma pairwise_sortInsert (k : String → Nat) (x : String) :
    ∀ l : List String, l.Pairwise (fun a b => k a ≤ k b) →
      (sortInsert k x l).Pairwise (fun a b => k a ≤ k b) := by
  intro l
  induction l with
  | nil =>
    intro _
    simp [sortInsert]
  | cons y ys ih =>
    intro h
    rw [List.pairwise_cons] at h
    rw [sortInsert]
    split
    · rename_i hyx
      rw [List.pairwise_cons]
      refine ⟨?_, ih h.2⟩
      intro z hz
      rcases mem_sortInsert k x z ys hz with rfl | hz2
      · exact hyx
      · exact h.1 z hz2
    · rename_i hyx
      rw [List.pairwise_cons]
      refine ⟨?_, List.pairwise_cons.mpr h⟩
      intro z hz
      rcases List.mem_cons.mp hz with rfl | hz2
      · omega
      · have := h.1 z hz2
        omega

/-- Auxiliary: the last element of a sorted list after a stable insertion
is the new element exactly when its key is at least the old last key. -/
lemma getLast?_sortInsert (k : String → Nat) (x : String) :
    ∀ (l : List String) (m : String),
      l.Pairwise (fun a b => k a ≤ k b) → l.getLast? = some m →
      (sortInsert k x l).getLast? = some (if k m ≤ k x then x else m) := by
  intro l
  induction l with
  | nil =>
    intro m _ hm
    simp at hm
  | cons y ys ih =>
    intro m hp hm
    cases ys with
    | nil =>
      simp at hm
      subst hm
      rw [sortInsert]
      split
      · simp [sortInsert]
      · simp
    | cons y2 ys2 =>
      rw [List.getLast?_cons_cons] at hm
      rw [List.pairwise_cons] at hp
      rw [sortInsert]
      split
      · rename_i hyx
        have htail := ih m hp.2 hm
        have hne := sortInsert_ne_nil k x (y2 :: ys2)
        cases hins : sortInsert k x (y2 :: ys2) with
        | nil => exact absurd hins hne
        | cons a as =>
          rw [List.getLast?_cons_cons]
          rw [hins] at htail
          exact htail
      · rename_i hyx
        have hmem : m ∈ y2 :: ys2 := by
          obtain ⟨hne2, heq⟩ := List.mem_getLast?_eq_getLast (Option.mem_def.mpr hm)
          rw [heq]
          exact List.getLast_mem hne2
        have hym : k y ≤ k m := hp.1 m hmem
        have hcond : ¬ k m ≤ k x := by omega
        rw [if_neg hcond]
        rw [List.getLast?_cons_cons, List.getLast?_cons_cons]
        exact hm

/-- Auxiliary: sortByKey over a list extended on the right is a stable
insertion into the sorted prefix. -/
lemma sortByKey_append_singleton (k : String → Nat) (l : List String) (x : String) :
    sortByKey k (l ++ [x]) = sortInsert k x (sortByKey k l) := by
  simp [sortByKey, List.foldl_append]

/-- Auxiliary: the greatest key over a right-extended list. -/
lemma maxKey_append_singleton (k : String → Nat) (l : List String) (x : String) :
    maxKey k (l ++ [x]) = max (maxKey k l) (k x) := by
  simp [maxKey, List.foldl_append]

/-- Auxiliary: the stable ascending sort puts last exactly the
last-encountered element of greatest key, which is also what the filter
description of the spec computes. -/
lemma sortByKey_getLast_spec (k : String → Nat) :
    ∀ l : List String, l ≠ [] →
      ∃ m, (sortByKey k l).getLast? = some m ∧ specLastMax k l = some m ∧
        k m = maxKey k l ∧ (sortByKey k l).Pairwise (fun a b => k a ≤ k b) := by
  intro l
  induction l using List.reverseRecOn with
  | nil => intro h; exact absurd rfl h
  | append_singleton l x ih =>
    intro _
    rw [sortByKey_append_singleton]
    cases hl : l with
    | nil =>
      subst hl
      refine ⟨x, rfl, ?_, ?_, ?_⟩
      · simp [specLastMax, maxKey]
      · simp [maxKey]
      · simp [sortByKey, sortInsert]
    | cons y ys =>
      have hlne : l ≠ [] := by rw [hl]; simp
      rw [← hl]
      obtain ⟨m, hlast, hspec, hk, hsort⟩ := ih hlne
      have hstep := getLast?_sortInsert k x (sortByKey k l) m hsort hlast
      have hmaxstep := maxKey_append_singleton k l x
      by_cases hcmp : k m ≤ k x
      · refine ⟨x, ?_, ?_, ?_, pairwise_sortInsert k x (sortByKey k l) hsort⟩
        · rw [hstep, if_pos hcmp]
        · have hmx : maxKey k (l ++ [x]) = k x := by
            rw [hmaxstep, ← hk]
            omega
          rw [specLastMax, hmx]
          rw [List.filter_append]
          simp
        · rw [hmaxstep, ← hk]
          omega
      · refine ⟨m, ?_, ?_, ?_, pairwise_sortInsert k x (sortByKey k l) hsort⟩
        · rw [hstep, if_neg hcmp]
        · have hmx : maxKey k (l ++ [x]) = maxKey k l := by
            rw [hmaxstep, ← hk]
            omega
          have hxout : ¬ (k x = maxKey k l) := by omega
          have hfx : List.filter (fun v => decide (k v = maxKey k l)) [x] = [] := by
            simp [hxout]
          rw [specLastMax, hmx, List.filter_append, hfx, List.append_nil]
          rw [specLastMax] at hspec
          exact hspec
        · rw [hmaxstep, ← hk]
          omega

/-- Claim C6: for a non-empty condition list, getMostFrequent returns the
spec description of the dominant condition: a value of greatest occurrence
count, with ties broken last-encountered-wins under the stable ascending
sort by frequency. -/
theorem dominant_condition_tiebreak (arr : List String) (h : arr ≠ []) :
    getMostFrequent arr = specDominantCondition arr ∧
    ∀ m, getMostFrequent arr = some m → countOcc arr m = maxCount arr := by
  obtain ⟨m, h1, h2, h3, -⟩ :=
    sortByKey_getLast_spec (fun v => countOcc arr v) arr h
  constructor
  · rw [getMostFrequent, h1]
    rw [specDominantCondition]
    rw [specLastMax] at h2
    exact h2.symm
  · intro m2 hm2
    rw [getMostFrequent, h1] at hm2
    have : m = m2 := Option.some.inj hm2
    subst this
    exact h3

/-- Witness for the C6 theorem: two conditions tied at two occurrences
each; the tie goes to the value whose occurrence comes last. -/
theorem dominant_condition_tiebreak_witness :
    (["Rain", "Sun", "Rain", "Sun"] : List String).isEmpty = false ∧
    getMostFrequent ["Rain", "Sun", "Rain", "Sun"] =
      specDominantCondition ["Rain", "Sun", "Rain", "Sun"] ∧
    getMostFrequent ["Rain", "Sun", "Rain", "Sun"] = some "Sun" := by
  refine ⟨by decide,
    (dominant_condition_tiebreak ["Rain", "Sun", "Rain", "Sun"] (by decide)).1,
    by decide⟩

/-- Auxiliary: a left fold of max is an upper bound of the seed and of
every element. -/
lemma foldl_max_bounds (r : List ℚ) :
    ∀ x : ℚ, x ≤ r.foldl max x ∧ ∀ y ∈ r, y ≤ r.foldl max x := by
  induction r with
  | nil =>
    intro x
    exact ⟨le_refl x, by simp⟩
  | cons a t ih =>
    intro x
    have h := ih (max x a)
    refine ⟨le_trans (le_max_left x a) h.1, ?_⟩
    intro y hy
    rcases List.mem_cons.mp hy with rfl | hy2
    · exact le_trans (le_max_right x y) h.1
    · exact h.2 y hy2

/-- Auxiliary: a left fold of min is a lower bound of the seed and of
every element. -/
lemma foldl_min_bounds (r : List ℚ) :
    ∀ x : ℚ, r.foldl min x ≤ x ∧ ∀ y ∈ r, r.foldl min x ≤ y := by
  induction r with
  | nil =>
    intro x
    exact ⟨le_refl x, by simp⟩
  | cons a t ih =>
    intro x
    have h := ih (min x a)
    refine ⟨le_trans h.1 (min_le_left x a), ?_⟩
    intro y hy
    rcases List.mem_cons.mp hy with rfl | hy2
    · exact le_trans h.1 (min_le_right x y)
    · exact h.2 y hy2

/-- Auxiliary: on a non-empty rational list the JavaScript statistics are
finite, equal to the exact mean, maximum and minimum, and the mean lies
between the minimum and the maximum. -/
lemma nonempty_stats (xs : List ℚ) (h : xs ≠ []) :
    jsMax xs = JNum.num (maxQ xs) ∧ jsMin xs = JNum.num (minQ xs) ∧
    jsDiv xs.sum (xs.length : ℚ) = JNum.num (meanQ xs) ∧
    minQ xs ≤ meanQ xs ∧ meanQ xs ≤ maxQ xs := by
  cases xs with
  | nil => exact absurd rfl h
  | cons x r =>
    have hpos : (0 : ℚ) < ((x :: r).length : ℚ) := by
      have h1 : 0 < (x :: r).length := by simp
      exact_mod_cast h1
    have hlen : ((x :: r).length : ℚ) ≠ 0 := ne_of_gt hpos
    refine ⟨rfl, rfl, ?_, ?_, ?_⟩
    · rw [jsDiv, if_neg hlen]
      rfl
    · have hlb : ∀ y ∈ x :: r, minQ (x :: r) ≤ y := by
        intro y hy
        rcases List.mem_cons.mp hy with rfl | hy2
        · exact (foldl_min_bounds r y).1
        · exact (foldl_min_bounds r x).2 y hy2
      have hsum := List.card_nsmul_le_sum (x :: r) (minQ (x :: r)) hlb
      rw [meanQ, le_div_iff₀ hpos]
      calc minQ (x :: r) * ((x :: r).length : ℚ)
          = ((x :: r).length : ℚ) * minQ (x :: r) := mul_comm _ _
        _ = (x :: r).length • minQ (x :: r) := (nsmul_eq_mul _ _).symm
        _ ≤ (x :: r).sum := hsum
    · have hub : ∀ y ∈ x :: r, y ≤ maxQ (x :: r) := by
        intro y hy
        rcases List.mem_cons.mp hy with rfl | hy2
        · exact (foldl_max_bounds r y).1
        · exact (foldl_max_bounds r x).2 y hy2
      have hsum := List.sum_le_card_nsmul (x :: r) (maxQ (x :: r)) hub
      rw [meanQ, div_le_iff₀ hpos]
      calc (x :: r).sum
          ≤ (x :: r).length • maxQ (x :: r) := hsum
        _ = ((x :: r).length : ℚ) * maxQ (x :: r) := nsmul_eq_mul _ _
        _ = maxQ (x :: r) * ((x :: r).length : ℚ) := mul_comm _ _

/-- Auxiliary: the averages the summary computes with the row count in the
denominator equal the exact means of the mapped value lists. -/
lemma nonempty_mean_map (data : List WeatherRow) (f : WeatherRow → ℚ)
    (h : data ≠ []) :
    jsDiv (data.map f).sum ((data.length : ℚ)) = JNum.num (meanQ (data.map f)) := by
  have h2 : data.map f ≠ [] := by simpa using h
  have h3 := (nonempty_stats (data.map f) h2).2.2.1
  simpa [List.length_map] using h3

/-- Claim C7: for a non-empty window the summary temperatures are finite
with the mean between the minimum and the maximum, and the humidity and
wind speed averages are the exact arithmetic means of the window values. -/
theorem summary_aggregation_invariant (db : List WeatherRow) (city : String)
    (s e : ℤ) (h : queryWindow db city s e ≠ []) :
    (calculateDailySummary db city s e).avgTemp =
      JNum.num (meanQ ((queryWindow db city s e).map (fun r => r.temp))) ∧
    (calculateDailySummary db city s e).maxTemp =
      JNum.num (maxQ ((queryWindow db city s e).map (fun r => r.temp))) ∧
    (calculateDailySummary db city s e).minTemp =
      JNum.num (minQ ((queryWindow db city s e).map (fun r => r.temp))) ∧
    minQ ((queryWindow db city s e).map (fun r => r.temp)) ≤
      meanQ ((queryWindow db city s e).map (fun r => r.temp)) ∧
    meanQ ((queryWindow db city s e).map (fun r => r.temp)) ≤
      maxQ ((queryWindow db city s e).map (fun r => r.temp)) ∧
    (calculateDailySummary db city s e).avgHumidity =
      JNum.num (meanQ ((queryWindow db city s e).map (fun r => r.humidity))) ∧
    (calculateDailySummary db city s e).avgWindSpeed =
      JNum.num (meanQ ((queryWindow db city s e).map (fun r => r.wind_speed))) := by
  have htne : (queryWindow db city s e).map (fun r => r.temp) ≠ [] := by
    simpa using h
  have ht := nonempty_stats ((queryWindow db city s e).map (fun r => r.temp)) htne
  refine ⟨ht.2.2.1, ht.1, ht.2.1, ht.2.2.2.1, ht.2.2.2.2, ?_, ?_⟩
  · exact nonempty_mean_map (queryWindow db city s e) (fun r => r.humidity) h
  · exact nonempty_mean_map (queryWindow db city s e) (fun r => r.wind_speed) h

/-- Witness for the C7 theorem on a one-row window. -/
theorem summary_aggregation_invariant_witness :
    (queryWindow [rowDelhi] "Delhi" 0 10).isEmpty = false ∧
    ((calculateDailySummary [rowDelhi] "Delhi" 0 10).avgTemp =
      JNum.num (meanQ ((queryWindow [rowDelhi] "Delhi" 0 10).map (fun r => r.temp))) ∧
    (calculateDailySummary [rowDelhi] "Delhi" 0 10).maxTemp =
      JNum.num (maxQ ((queryWindow [rowDelhi] "Delhi" 0 10).map (fun r => r.temp))) ∧
    (calculateDailySummary [rowDelhi] "Delhi" 0 10).minTemp =
      JNum.num (minQ ((queryWindow [rowDelhi] "Delhi" 0 10).map (fun r => r.temp))) ∧
    minQ ((queryWindow [rowDelhi] "Delhi" 0 10).map (fun r => r.temp)) ≤
      meanQ ((queryWindow [rowDelhi] "Delhi" 0 10).map (fun r => r.temp)) ∧
    meanQ ((queryWindow [rowDelhi] "Delhi" 0 10).map (fun r => r.temp)) ≤
      maxQ ((queryWindow [rowDelhi] "Delhi" 0 10).map (fun r => r.temp)) ∧
    (calculateDailySummary [rowDelhi] "Delhi" 0 10).avgHumidity =
      JNum.num (meanQ ((queryWindow [rowDelhi] "Delhi" 0 10).map (fun r => r.humidity))) ∧
    (calculateDailySummary [rowDelhi] "Delhi" 0 10).avgWindSpeed =
      JNum.num (meanQ ((queryWindow [rowDelhi] "Delhi" 0 10).map (fun r => r.wind_speed)))) := by
  refine ⟨by decide, summary_aggregation_invariant [rowDelhi] "Delhi" 0 10 (by decide)⟩

/-- Auxiliary: if the provider event settles, so does the outcome of the
cache-miss path. -/
lemma fetchMiss_settles (cache : CacheState) (now : ℤ) (ev : ProviderEvent)
    (city key : String) (h : eventSettles city ev = true) :
    ((fetchMiss cache now ev city key).outcome).settles = true := by
  cases ev with
  | netErr m => rfl
  | invalidJson m => simp [eventSettles] at h
  | response raw =>
    simp only [eventSettles] at h
    cases hh : handleEnd city raw with
    | ok d => simp only [fetchMiss, hh]; rfl
    | typeError m =>
      rw [hh] at h
      simp at h

/-- Auxiliary: if the provider event settles, so does the fetch outcome:
a cache hit resolves, and a miss settles by the previous lemma. -/
lemma fetch_settles (cache : CacheState) (now : ℤ) (ev : ProviderEvent)
    (city : String) (h : eventSettles city ev = true) :
    ((fetchWeatherData cache now ev city).outcome).settles = true := by
  unfold fetchWeatherData
  split
  · split
    · rfl
    · exact fetchMiss_settles _ _ _ _ _ h
  · exact fetchMiss_settles _ _ _ _ _ h

/-- Auxiliary: a settling fetch never stalls one iteration of the polling
loop body: the result is processed or a caught error. -/
lemma processCity_not_stalled (provider : String → ProviderEvent)
    (persistOk : String → Bool) (now : ℤ) (cache : CacheState)
    (counts : String → Nat) (city : String)
    (h : eventSettles city (provider city) = true) :
    ∀ m, (processCity provider persistOk now cache counts city).1 ≠
      CityResult.stalled m := by
  intro m
  have hs := fetch_settles cache now (provider city) city h
  simp only [processCity]
  cases ho : (fetchWeatherData cache now (provider city) city).outcome with
  | resolved d =>
    by_cases hp : persistOk city = true
    · simp [hp]
    · simp [hp]
  | rejected m2 => simp
  | unsettled m2 =>
    rw [ho] at hs
    simp [FetchOutcome.settles] at hs

/-- Claim C9 amended: as long as every fetch in the sweep settles (cache
hit, network rejection, or well-formed payload), every city of the sweep is
reached and given a per-city result; rejected fetches and persistence
failures are caught and never prevent later cities. -/
theorem sweep_isolation_amended (provider : String → ProviderEvent)
    (persistOk : String → Bool) (now : ℤ) (l : List String) :
    ∀ (cache : CacheState) (counts : String → Nat),
      (∀ c ∈ l, eventSettles c (provider c) = true) →
      (sweep provider persistOk now cache counts l).1.map Prod.fst = l := by
  induction l with
  | nil =>
    intro cache counts _
    rfl
  | cons city rest ih =>
    intro cache counts h
    have hcity := h city (List.mem_cons_self _ _)
    have hrest : ∀ c ∈ rest, eventSettles c (provider c) = true :=
      fun c hc => h c (List.mem_cons_of_mem _ hc)
    cases hr : (processCity provider persistOk now cache counts city).1 with
    | processed row dec =>
      simp only [sweep, hr, List.map_cons]
      rw [ih _ _ hrest]
    | caughtFetch m =>
      simp only [sweep, hr, List.map_cons]
      rw [ih _ _ hrest]
    | caughtPersist =>
      simp only [sweep, hr, List.map_cons]
      rw [ih _ _ hrest]
    | stalled m =>
      exact absurd hr
        (processCity_not_stalled provider persistOk now cache counts city hcity m)

/-- Witness for the amended C9 theorem: the Delhi fetch fails with a
network error, yet Mumbai is still visited in the same sweep. -/
theorem sweep_isolation_amended_witness :
    eventSettles "Delhi" (ProviderEvent.netErr "connect ECONNREFUSED") = true ∧
    eventSettles "Mumbai" (ProviderEvent.response rawClear) = true ∧
    (sweep
        (fun c => if c = "Delhi" then ProviderEvent.netErr "connect ECONNREFUSED"
          else ProviderEvent.response rawClear)
        (fun _ => true) 0 (fun _ => none) (fun _ => 0)
        ["Delhi", "Mumbai"]).1.map Prod.fst = ["Delhi", "Mumbai"] := by
  refine ⟨by decide, by decide, ?_⟩
  exact sweep_isolation_amended
    (fun c => if c = "Delhi" then ProviderEvent.netErr "connect ECONNREFUSED"
      else ProviderEvent.response rawClear)
    (fun _ => true) 0 ["Delhi", "Mumbai"] (fun _ => none) (fun _ => 0) (by decide)

/-- Counterexample to claim C9: a malformed payload for Delhi makes the
fetch promise never settle, so the await inside the loop blocks forever:
the sweep result contains only Delhi and Mumbai is neither fetched nor
persisted nor alert-evaluated in that sweep. -/
theorem sweep_stall_counterexample :
    (sweep
        (fun c => if c = "Delhi"
          then ProviderEvent.response { rawClear with weather := none }
          else ProviderEvent.response rawClear)
        (fun _ => true) 0 (fun _ => none) (fun _ => 0)
        ["Delhi", "Mumbai"]).1 =
      [("Delhi", CityResult.stalled "TypeError: cannot read 0 of undefined")] := by
  decide

end Weather
